import Mathlib

/-!
Shallow embedding of `src/server/src/main.rs` (anon-coordination server).

The server exposes one HTTP endpoint, `registration_handler`, which
verifies a Noir proof (`verify_noir_proof`) and, only on success, runs a
VOPRF evaluation (`call_voprf_api`).  External crate calls (file loading,
barretenberg SRS / verification-key / proof-check routines, the voprf
server setup and evaluation, and the OS random source) are modelled as an
oracle record `Env`; each embedded function returns its result together
with the list of collaborator calls it performed, so that "X is never
invoked" properties are statements about that trace.  The `hex` crate's
`decode`/`encode` are small and fully specified, so they are embedded
directly as executable functions.
-/

deriving instance DecidableEq for Except

/-- Collaborator calls that the server code can perform, in the order the
source performs them.  `loadCircuitFile` is `load_bytecode_from_file`,
`setupSrsCall` is `setup_srs_from_bytecode`, `getVkCall` is
`get_honk_verification_key`, `verifyCheck` is `verify_ultra_honk`,
`hexDecodeCall` is `hex::decode`, `serverSetupCall` is
`ServerSetup::new(&mut OsRng)` (key-material generation) and
`evaluateCall` is `VoprfServer::evaluate`. -/
inductive Event where
  | loadCircuitFile
  | setupSrsCall
  | getVkCall
  | verifyCheck
  | hexDecodeCall
  | serverSetupCall
  | evaluateCall
deriving DecidableEq, Repr

/-- The `hex` crate's error type: odd input length, or an invalid
character at a given index. -/
inductive FromHexError where
  | oddLength
  | invalidHexCharacter (c : Char) (index : Nat)
deriving DecidableEq, Repr

/-- Rendering of `FromHexError` used when the Rust code formats the error
with `{:?}` into a message string. -/
def FromHexError.debugFmt : FromHexError → String
  | FromHexError.oddLength => "OddLength"
  | FromHexError.invalidHexCharacter c i =>
      "InvalidHexCharacter \x7b c: " ++ String.singleton c ++
        ", index: " ++ toString i ++ " \x7d"

/-- Value of a single hexadecimal digit, `none` for a non-hex character
(the `hex` crate accepts `0-9`, `a-f`, `A-F`). -/
def hexVal (c : Char) : Option Nat :=
  if '0' ≤ c ∧ c ≤ '9' then some (c.toNat - '0'.toNat)
  else if 'a' ≤ c ∧ c ≤ 'f' then some (c.toNat - 'a'.toNat + 10)
  else if 'A' ≤ c ∧ c ≤ 'F' then some (c.toNat - 'A'.toNat + 10)
  else none

/-- Pairwise decoding of an (even-length) character list into bytes,
tracking the index of the current character for error reporting, as
`hex::decode` does. -/
def hexDecodeChars : List Char → Nat → Except FromHexError (List Nat)
  | [], _ => Except.ok []
  | [_], _ => Except.error FromHexError.oddLength
  | c1 :: c2 :: rest, i =>
      match hexVal c1 with
      | none => Except.error (FromHexError.invalidHexCharacter c1 i)
      | some v1 =>
          match hexVal c2 with
          | none => Except.error (FromHexError.invalidHexCharacter c2 (i + 1))
          | some v2 =>
              match hexDecodeChars rest (i + 2) with
              | Except.error e => Except.error e
              | Except.ok bs => Except.ok ((16 * v1 + v2) :: bs)

/-- `hex::decode`: rejects odd-length input first, then decodes pairs of
hex digits left to right.  The empty string decodes to the empty byte
sequence. -/
def hexDecode (s : String) : Except FromHexError (List Nat) :=
  if s.length % 2 ≠ 0 then Except.error FromHexError.oddLength
  else hexDecodeChars s.data 0

/-- Lower-case hexadecimal digit for a value below 16. -/
def hexDigit (n : Nat) : Char :=
  if n < 10 then Char.ofNat (Char.toNat '0' + n)
  else Char.ofNat (Char.toNat 'a' + (n - 10))

/-- `hex::encode`: two lower-case hex digits per byte. -/
def hexEncode (bytes : List Nat) : String :=
  String.mk (bytes.foldr
    (fun b acc => hexDigit (b / 16 % 16) :: hexDigit (b % 16) :: acc) [])

/-- Oracle record for the external collaborators of the server.  Each
field is the outcome of the corresponding crate call: the circuit file
load (`load_bytecode_from_file` on the fixed path), the three
barretenberg routines used by `verify_noir_proof`, and the two voprf
calls used by `call_voprf_api`.  `server_setup_new` takes the value drawn
from `OsRng` during that call; verification keys and server setups are
opaque handles, modelled as `Nat`. -/
structure Env where
  load_bytecode_from_file : Except String String
  setup_srs_from_bytecode : String → Except String Unit
  get_honk_verification_key : String → Except String Nat
  verify_ultra_honk : String → Nat → Except String Bool
  server_setup_new : Nat → Except String Nat
  server_evaluate : Nat → List Nat → Except String (List Nat)

/-- `verify_noir_proof` from `main.rs`: loads the circuit bytecode from
the JSON file, sets up the SRS from it, retrieves the Honk verification
key, and runs `verify_ultra_honk`; every error branch logs and returns
`false`.  The second component records which collaborators were called,
in order. -/
def verify_noir_proof (env : Env) (proof_str : String) : Bool × List Event :=
  match env.load_bytecode_from_file with
  | Except.error _ => (false, [Event.loadCircuitFile])
  | Except.ok bytecode =>
      match env.setup_srs_from_bytecode bytecode with
      | Except.error _ => (false, [Event.loadCircuitFile, Event.setupSrsCall])
      | Except.ok _ =>
          match env.get_honk_verification_key bytecode with
          | Except.error _ =>
              (false, [Event.loadCircuitFile, Event.setupSrsCall, Event.getVkCall])
          | Except.ok vk =>
              match env.verify_ultra_honk proof_str vk with
              | Except.ok verdict =>
                  (verdict,
                    [Event.loadCircuitFile, Event.setupSrsCall, Event.getVkCall,
                      Event.verifyCheck])
              | Except.error _ =>
                  (false,
                    [Event.loadCircuitFile, Event.setupSrsCall, Event.getVkCall,
                      Event.verifyCheck])

/-- `call_voprf_api` from `main.rs`: hex-decodes the blinded input
(failing early with an invalid-input error), then creates a fresh
`ServerSetup` from `OsRng` (`rng` is the value drawn in this call),
wraps it in a `VoprfServer`, evaluates the blinded bytes, and hex-encodes
the result.  Error messages mirror the `format!` strings of the source. -/
def call_voprf_api (env : Env) (rng : Nat) (blinded_hex : String) :
    Except String String × List Event :=
  match hexDecode blinded_hex with
  | Except.error e =>
      (Except.error ("Invalid hex in blinded input: " ++ e.debugFmt),
        [Event.hexDecodeCall])
  | Except.ok blinded_bytes =>
      match env.server_setup_new rng with
      | Except.error e =>
          (Except.error ("Server setup error: " ++ e),
            [Event.hexDecodeCall, Event.serverSetupCall])
      | Except.ok setup =>
          match env.server_evaluate setup blinded_bytes with
          | Except.error e =>
              (Except.error ("Evaluation error: " ++ e),
                [Event.hexDecodeCall, Event.serverSetupCall, Event.evaluateCall])
          | Except.ok evaluation =>
              (Except.ok (hexEncode evaluation),
                [Event.hexDecodeCall, Event.serverSetupCall, Event.evaluateCall])

/-- The JSON payload of a registration request. -/
structure RegistrationRequest where
  proof : String
  voprf_input : String

/-- The HTTP responses the handler can produce: `200 OK`,
`400 Bad Request`, `500 Internal Server Error`, each with a body. -/
inductive HttpResponse where
  | ok (body : String)
  | badRequest (body : String)
  | internalServerError (body : String)
deriving DecidableEq, Repr

/-- `registration_handler` from `main.rs`: verifies the Noir proof and
returns `400 Invalid proof` on failure; otherwise calls the VOPRF API and
returns `200` with the result or `500` with the formatted error. -/
def registration_handler (env : Env) (rng : Nat) (req : RegistrationRequest) :
    HttpResponse × List Event :=
  if ! (verify_noir_proof env req.proof).1 then
    (HttpResponse.badRequest "Invalid proof", (verify_noir_proof env req.proof).2)
  else
    match (call_voprf_api env rng req.voprf_input).1 with
    | Except.ok result =>
        (HttpResponse.ok ("VOPRF evaluation result: " ++ result),
          (verify_noir_proof env req.proof).2 ++ (call_voprf_api env rng req.voprf_input).2)
    | Except.error e =>
        (HttpResponse.internalServerError ("Error calling VOPRF API: " ++ e),
          (verify_noir_proof env req.proof).2 ++ (call_voprf_api env rng req.voprf_input).2)

/-- Collaborator calls performed by `main` before serving requests: it
only binds the HTTP server; in particular it performs no circuit-file
load, no SRS setup and no key generation. -/
def main_startup_trace : List Event := []

/-- Concrete environment in which every collaborator succeeds and the
proof check accepts; `server_evaluate` returns a byte derived from the
server setup handle, so the result depends on the key material. -/
def envOk : Env where
  load_bytecode_from_file := Except.ok "bytecode"
  setup_srs_from_bytecode := fun _ => Except.ok ()
  get_honk_verification_key := fun _ => Except.ok 7
  verify_ultra_honk := fun _ _ => Except.ok true
  server_setup_new := fun r => Except.ok r
  server_evaluate := fun setup _ => Except.ok [setup % 256]

/-- Environment in which the circuit configuration file fails to load. -/
def envLoadFail : Env where
  load_bytecode_from_file := Except.error "No such file or directory"
  setup_srs_from_bytecode := fun _ => Except.ok ()
  get_honk_verification_key := fun _ => Except.ok 7
  verify_ultra_honk := fun _ _ => Except.ok true
  server_setup_new := fun r => Except.ok r
  server_evaluate := fun setup _ => Except.ok [setup % 256]

/-- Environment whose evaluator fails with internal detail `boom1`
(verification succeeds). -/
def envE1 : Env where
  load_bytecode_from_file := Except.ok "bytecode"
  setup_srs_from_bytecode := fun _ => Except.ok ()
  get_honk_verification_key := fun _ => Except.ok 7
  verify_ultra_honk := fun _ _ => Except.ok true
  server_setup_new := fun r => Except.ok r
  server_evaluate := fun _ _ => Except.error "boom1"

/-- Environment identical to `envE1` except for the evaluator's internal
error detail, `boom2`. -/
def envE2 : Env where
  load_bytecode_from_file := Except.ok "bytecode"
  setup_srs_from_bytecode := fun _ => Except.ok ()
  get_honk_verification_key := fun _ => Except.ok 7
  verify_ultra_honk := fun _ _ => Except.ok true
  server_setup_new := fun r => Except.ok r
  server_evaluate := fun _ _ => Except.error "boom2"

/-- A request with a proof string and a well-formed hex blinded input. -/
def req0 : RegistrationRequest where
  proof := "proofbytes"
  voprf_input := "ab"

/-- A request with a well-formed proof but non-hexadecimal blinded
input. -/
def reqBadHex : RegistrationRequest where
  proof := "proofbytes"
  voprf_input := "zz"

/-- Helper: the trace of `verify_noir_proof` is one of four prefixes of
the full load / SRS-setup / key-retrieval / proof-check sequence,
depending on which stage fails first. -/
theorem verify_trace_cases (env : Env) (p : String) :
    (verify_noir_proof env p).2 = [Event.loadCircuitFile] ∨
    (verify_noir_proof env p).2 = [Event.loadCircuitFile, Event.setupSrsCall] ∨
    (verify_noir_proof env p).2 =
      [Event.loadCircuitFile, Event.setupSrsCall, Event.getVkCall] ∨
    (verify_noir_proof env p).2 =
      [Event.loadCircuitFile, Event.setupSrsCall, Event.getVkCall,
        Event.verifyCheck] := by
  unfold verify_noir_proof
  cases hl : env.load_bytecode_from_file with
  | error e => simp [hl]
  | ok b =>
    cases hs : env.setup_srs_from_bytecode b with
    | error e => simp [hs]
    | ok u =>
      cases hk : env.get_honk_verification_key b with
      | error e => simp [hs, hk]
      | ok vk =>
        cases hv : env.verify_ultra_honk p vk <;> simp [hs, hk, hv]

/-- Helper: the trace of `verify_noir_proof` never contains a voprf-side
call: no hex decoding, no key-material setup, no evaluation. -/
theorem verify_trace_no_voprf_events (env : Env) (p : String) :
    Event.evaluateCall ∉ (verify_noir_proof env p).2 ∧
    Event.serverSetupCall ∉ (verify_noir_proof env p).2 ∧
    Event.hexDecodeCall ∉ (verify_noir_proof env p).2 := by
  rcases verify_trace_cases env p with h | h | h | h <;> rw [h] <;> decide

/-- C1: for every registration request, if the proof verifier returns
false for the submitted proof, the handler responds `400 Invalid proof`,
and neither key-material setup nor the OPRF evaluation is ever invoked,
so no EvaluationResult is computed or returned to the client. -/
theorem verification_gates_evaluation (env : Env) (rng : Nat)
    (req : RegistrationRequest)
    (h : (verify_noir_proof env req.proof).1 = false) :
    (registration_handler env rng req).1 = HttpResponse.badRequest "Invalid proof" ∧
    Event.evaluateCall ∉ (registration_handler env rng req).2 ∧
    Event.serverSetupCall ∉ (registration_handler env rng req).2 := by
  have ht := verify_trace_no_voprf_events env req.proof
  unfold registration_handler
  rw [h]
  exact ⟨rfl, ht.1, ht.2.1⟩

/-- Witness for C1 at a concrete environment whose circuit load fails, so
verification returns false. -/
theorem verification_gates_evaluation_witness :
    (registration_handler envLoadFail 0 req0).1 = HttpResponse.badRequest "Invalid proof" ∧
    Event.evaluateCall ∉ (registration_handler envLoadFail 0 req0).2 ∧
    Event.serverSetupCall ∉ (registration_handler envLoadFail 0 req0).2 :=
  verification_gates_evaluation envLoadFail 0 req0 rfl

/-- C2 is refuted by the code: `call_voprf_api` generates fresh key
material (`ServerSetup::new(&mut OsRng)`) inside every call — a
`serverSetupCall` occurs per request — so two calls on the same fixed
blinded input `"ab"` within one process, whose `OsRng` draws differ,
return different EvaluationResults. -/
theorem key_material_regenerated_per_call :
    (call_voprf_api envOk 0 "ab").1 = Except.ok "00" ∧
    (call_voprf_api envOk 1 "ab").1 = Except.ok "01" ∧
    (call_voprf_api envOk 0 "ab").1 ≠ (call_voprf_api envOk 1 "ab").1 ∧
    Event.serverSetupCall ∈ (call_voprf_api envOk 0 "ab").2 ∧
    Event.serverSetupCall ∈ (call_voprf_api envOk 1 "ab").2 := by decide

/-- C4: for every input string that is not well-formed hexadecimal,
`call_voprf_api` returns an invalid-input error, and neither key-material
setup nor the evaluation function is ever reached. -/
theorem malformed_hex_rejected_before_key_material (env : Env) (rng : Nat)
    (s : String) (h : ∃ e, hexDecode s = Except.error e) :
    (∃ d, (call_voprf_api env rng s).1 =
        Except.error ("Invalid hex in blinded input: " ++ d)) ∧
    Event.serverSetupCall ∉ (call_voprf_api env rng s).2 ∧
    Event.evaluateCall ∉ (call_voprf_api env rng s).2 := by
  obtain ⟨e, he⟩ := h
  unfold call_voprf_api
  rw [he]
  refine ⟨⟨e.debugFmt, rfl⟩, ?_, ?_⟩ <;> simp

/-- Witness for C4 at the non-hexadecimal input `"zz"`. -/
theorem malformed_hex_rejected_before_key_material_witness :
    (∃ d, (call_voprf_api envOk 0 "zz").1 =
        Except.error ("Invalid hex in blinded input: " ++ d)) ∧
    Event.serverSetupCall ∉ (call_voprf_api envOk 0 "zz").2 ∧
    Event.evaluateCall ∉ (call_voprf_api envOk 0 "zz").2 :=
  malformed_hex_rejected_before_key_material envOk 0 "zz"
    ⟨FromHexError.invalidHexCharacter 'z' 0, by decide⟩

/-- C5: any failure inside `verify_noir_proof` — the circuit file load,
the SRS setup, the verification-key retrieval, or the proof check itself
erroring — makes it return `false` (it is a total function, so it cannot
panic or abort), letting the caller produce a client-facing rejection. -/
theorem verify_returns_false_on_failure (env : Env) (p : String) :
    ((∃ e, env.load_bytecode_from_file = Except.error e) →
        (verify_noir_proof env p).1 = false) ∧
    (∀ b, env.load_bytecode_from_file = Except.ok b →
        (∃ e, env.setup_srs_from_bytecode b = Except.error e) →
        (verify_noir_proof env p).1 = false) ∧
    (∀ b, env.load_bytecode_from_file = Except.ok b →
        (∃ e, env.get_honk_verification_key b = Except.error e) →
        (verify_noir_proof env p).1 = false) ∧
    (∀ b vk, env.load_bytecode_from_file = Except.ok b →
        env.get_honk_verification_key b = Except.ok vk →
        (∃ e, env.verify_ultra_honk p vk = Except.error e) →
        (verify_noir_proof env p).1 = false) := by
  refine ⟨?_, ?_, ?_, ?_⟩
  · rintro ⟨e, he⟩
    simp [verify_noir_proof, he]
  · rintro b hb ⟨e, he⟩
    simp [verify_noir_proof, hb, he]
  · rintro b hb ⟨e, he⟩
    cases hs : env.setup_srs_from_bytecode b with
    | error e2 => simp [verify_noir_proof, hb, hs]
    | ok u => simp [verify_noir_proof, hb, hs, he]
  · rintro b vk hb hk ⟨e, he⟩
    cases hs : env.setup_srs_from_bytecode b with
    | error e2 => simp [verify_noir_proof, hb, hs]
    | ok u => simp [verify_noir_proof, hb, hs, hk, he]

/-- Witness for C5 at an environment whose circuit file load fails. -/
theorem verify_returns_false_on_failure_witness :
    (verify_noir_proof envLoadFail "proofbytes").1 = false :=
  (verify_returns_false_on_failure envLoadFail "proofbytes").1
    ⟨"No such file or directory", rfl⟩

/-- C6: the handler distinguishes the two failure stages — a verification
failure yields the client-fault `400 Invalid proof` response, while an
evaluator failure after a successful verification yields the distinct
server-fault `500` response; the two response constructors can never
coincide. -/
theorem rejection_stages_distinguished (env : Env) (rng : Nat)
    (req : RegistrationRequest) :
    ((verify_noir_proof env req.proof).1 = false →
        (registration_handler env rng req).1 =
          HttpResponse.badRequest "Invalid proof") ∧
    (∀ e, (verify_noir_proof env req.proof).1 = true →
        (call_voprf_api env rng req.voprf_input).1 = Except.error e →
        (registration_handler env rng req).1 =
          HttpResponse.internalServerError ("Error calling VOPRF API: " ++ e)) ∧
    (∀ b1 b2, HttpResponse.badRequest b1 ≠ HttpResponse.internalServerError b2) := by
  refine ⟨?_, ?_, ?_⟩
  · intro h
    unfold registration_handler
    rw [h]
    rfl
  · intro e hv hc
    unfold registration_handler
    rw [hv, hc]
    rfl
  · intro b1 b2 h
    cases h

/-- Witness for C6: a failed-load environment produces the `400` branch,
and a failing-evaluator environment with a valid proof produces the
`500` branch. -/
theorem rejection_stages_distinguished_witness :
    (registration_handler envLoadFail 0 req0).1 =
      HttpResponse.badRequest "Invalid proof" ∧
    (registration_handler envE1 0 req0).1 =
      HttpResponse.internalServerError
        ("Error calling VOPRF API: " ++ "Evaluation error: boom1") :=
  ⟨(rejection_stages_distinguished envLoadFail 0 req0).1 rfl,
    (rejection_stages_distinguished envE1 0 req0).2.1 "Evaluation error: boom1"
      (by decide) (by decide)⟩

/-- C8 is refuted by the code: two environments that differ only in the
evaluator's internal error detail produce different client-visible
bodies, because the handler interpolates the internal error into the
`500` response. -/
theorem evaluator_error_detail_leaks_cex :
    (registration_handler envE1 0 req0).1 ≠ (registration_handler envE2 0 req0).1 ∧
    (registration_handler envE1 0 req0).1 =
      HttpResponse.internalServerError
        "Error calling VOPRF API: Evaluation error: boom1" ∧
    (registration_handler envE2 0 req0).1 =
      HttpResponse.internalServerError
        "Error calling VOPRF API: Evaluation error: boom2" := by decide

/-- C8 amended: when the evaluator fails after a valid proof, the `500`
response body embeds the internal error detail verbatim after the fixed
prefix, so the body varies with the internal error. -/
theorem evaluator_error_embedded_in_response (env : Env) (rng : Nat)
    (req : RegistrationRequest) (e : String)
    (hv : (verify_noir_proof env req.proof).1 = true)
    (hc : (call_voprf_api env rng req.voprf_input).1 = Except.error e) :
    (registration_handler env rng req).1 =
      HttpResponse.internalServerError ("Error calling VOPRF API: " ++ e) := by
  unfold registration_handler
  rw [hv, hc]
  rfl

/-- Witness for the amended C8 at a concrete failing evaluator. -/
theorem evaluator_error_embedded_in_response_witness :
    (registration_handler envE1 0 req0).1 =
      HttpResponse.internalServerError
        ("Error calling VOPRF API: " ++ "Evaluation error: boom1") :=
  evaluator_error_embedded_in_response envE1 0 req0 "Evaluation error: boom1"
    (by decide) (by decide)

/-- C3 is refuted by the code: handling two registration requests loads
the circuit file, runs SRS setup and derives the verification key once
per request — twice in total — while process startup performs none of
these, so nothing is loaded once at startup or memoized. -/
theorem setup_not_memoized_cex :
    List.count Event.loadCircuitFile
        ((registration_handler envOk 0 req0).2 ++ (registration_handler envOk 0 req0).2) = 2 ∧
    List.count Event.setupSrsCall
        ((registration_handler envOk 0 req0).2 ++ (registration_handler envOk 0 req0).2) = 2 ∧
    List.count Event.getVkCall
        ((registration_handler envOk 0 req0).2 ++ (registration_handler envOk 0 req0).2) = 2 ∧
    Event.loadCircuitFile ∉ main_startup_trace := by decide

/-- C3 amended: the circuit file is loaded anew on every call to
`verify_noir_proof`; the SRS is re-established on every call whose load
succeeds and the verification key re-derived on every call whose SRS
setup also succeeds; `main` performs no startup load and keeps no cache. -/
theorem setup_rederived_every_call (env : Env) (p : String) :
    List.count Event.loadCircuitFile (verify_noir_proof env p).2 = 1 ∧
    (∀ b, env.load_bytecode_from_file = Except.ok b →
        List.count Event.setupSrsCall (verify_noir_proof env p).2 = 1) ∧
    (∀ b, env.load_bytecode_from_file = Except.ok b →
        env.setup_srs_from_bytecode b = Except.ok () →
        List.count Event.getVkCall (verify_noir_proof env p).2 = 1) ∧
    main_startup_trace = [] := by
  refine ⟨?_, ?_, ?_, rfl⟩
  · rcases verify_trace_cases env p with h | h | h | h <;> rw [h] <;> decide
  · intro b hb
    unfold verify_noir_proof
    cases hs : env.setup_srs_from_bytecode b with
    | error e => simp [hb, hs]
    | ok u =>
      cases hk : env.get_honk_verification_key b with
      | error e => simp [hb, hs, hk]
      | ok vk =>
        cases hv : env.verify_ultra_honk p vk <;> simp [hb, hs, hk, hv]
  · intro b hb hs
    unfold verify_noir_proof
    cases hk : env.get_honk_verification_key b with
    | error e => simp [hb, hs, hk]
    | ok vk =>
      cases hv : env.verify_ultra_honk p vk <;> simp [hb, hs, hk, hv]

/-- Witness for the amended C3 at a concrete all-succeeding
environment. -/
theorem setup_rederived_every_call_witness :
    List.count Event.loadCircuitFile (verify_noir_proof envOk "proofbytes").2 = 1 ∧
    List.count Event.setupSrsCall (verify_noir_proof envOk "proofbytes").2 = 1 ∧
    List.count Event.getVkCall (verify_noir_proof envOk "proofbytes").2 = 1 :=
  ⟨(setup_rederived_every_call envOk "proofbytes").1,
    (setup_rederived_every_call envOk "proofbytes").2.1 "bytecode" rfl,
    (setup_rederived_every_call envOk "proofbytes").2.2.1 "bytecode" rfl rfl⟩

/-- C7 is refuted by the code: with a failing circuit-file load, a
registration request is rejected as `400 Invalid proof` — its outcome is
determined by the load failure (handling the same request under a
succeeding load answers differently) — while process startup performs no
circuit load at all, so the failure is per-request, not fatal at
startup. -/
theorem circuit_load_failure_per_request_cex :
    (registration_handler envLoadFail 0 req0).1 =
      HttpResponse.badRequest "Invalid proof" ∧
    Event.loadCircuitFile ∈ (registration_handler envLoadFail 0 req0).2 ∧
    (registration_handler envLoadFail 0 req0).1 ≠ (registration_handler envOk 0 req0).1 ∧
    main_startup_trace = [] := by decide

/-- C7 amended: the circuit configuration file is loaded during each
request's verification, never at startup; a load failure is a per-request
condition that causes that request to be rejected with
`400 Invalid proof`. -/
theorem circuit_load_failure_observed_per_request (env : Env) (rng : Nat)
    (req : RegistrationRequest)
    (h : ∃ e, env.load_bytecode_from_file = Except.error e) :
    (registration_handler env rng req).1 = HttpResponse.badRequest "Invalid proof" ∧
    Event.loadCircuitFile ∈ (registration_handler env rng req).2 ∧
    main_startup_trace = [] := by
  obtain ⟨e, he⟩ := h
  have hv : verify_noir_proof env req.proof = (false, [Event.loadCircuitFile]) := by
    unfold verify_noir_proof
    rw [he]
  unfold registration_handler
  rw [hv]
  refine ⟨rfl, ?_, rfl⟩
  simp

/-- Witness for the amended C7 at a concrete failing-load environment. -/
theorem circuit_load_failure_observed_per_request_witness :
    (registration_handler envLoadFail 0 req0).1 = HttpResponse.badRequest "Invalid proof" ∧
    Event.loadCircuitFile ∈ (registration_handler envLoadFail 0 req0).2 ∧
    main_startup_trace = [] :=
  circuit_load_failure_observed_per_request envLoadFail 0 req0
    ⟨"No such file or directory", rfl⟩

/-- C9: for a request whose proof verifies but whose blinded input is not
valid hexadecimal, the handler rejects with a body identifying input
validation (the invalid-hex message), not with the `Invalid proof`
rejection. -/
theorem valid_proof_malformed_hex_input_validation (env : Env) (rng : Nat)
    (req : RegistrationRequest)
    (hv : (verify_noir_proof env req.proof).1 = true)
    (hx : ∃ e, hexDecode req.voprf_input = Except.error e) :
    (∃ d, (registration_handler env rng req).1 =
        HttpResponse.internalServerError
          ("Error calling VOPRF API: " ++ ("Invalid hex in blinded input: " ++ d))) ∧
    (registration_handler env rng req).1 ≠ HttpResponse.badRequest "Invalid proof" := by
  obtain ⟨e, he⟩ := hx
  have hc : (call_voprf_api env rng req.voprf_input).1 =
      Except.error ("Invalid hex in blinded input: " ++ e.debugFmt) := by
    unfold call_voprf_api
    rw [he]
  refine ⟨⟨e.debugFmt, ?_⟩, ?_⟩
  · unfold registration_handler
    rw [hv, hc]
    rfl
  · unfold registration_handler
    rw [hv, hc]
    intro hcontra
    cases hcontra

/-- Witness for C9 at an all-succeeding environment and the
non-hexadecimal blinded input `"zz"`. -/
theorem valid_proof_malformed_hex_input_validation_witness :
    (∃ d, (registration_handler envOk 0 reqBadHex).1 =
        HttpResponse.internalServerError
          ("Error calling VOPRF API: " ++ ("Invalid hex in blinded input: " ++ d))) ∧
    (registration_handler envOk 0 reqBadHex).1 ≠ HttpResponse.badRequest "Invalid proof" :=
  valid_proof_malformed_hex_input_validation envOk 0 reqBadHex (by decide)
    ⟨FromHexError.invalidHexCharacter 'z' 0, by decide⟩

/-- C10: the empty blinded-input string passes hex decoding (it decodes
to the empty byte sequence), so `call_voprf_api` reaches key-material
setup — and the evaluation function whenever setup succeeds — and any
error it returns for this input carries a setup or evaluation message,
never the invalid-input one. -/
theorem empty_string_reaches_evaluator (env : Env) (rng : Nat) :
    hexDecode "" = Except.ok [] ∧
    Event.serverSetupCall ∈ (call_voprf_api env rng "").2 ∧
    (∀ s, env.server_setup_new rng = Except.ok s →
        Event.evaluateCall ∈ (call_voprf_api env rng "").2) ∧
    (∀ e, (call_voprf_api env rng "").1 = Except.error e →
        (∃ d, e = "Server setup error: " ++ d) ∨
          (∃ d, e = "Evaluation error: " ++ d)) := by
  have hd : hexDecode "" = Except.ok [] := rfl
  refine ⟨rfl, ?_, ?_, ?_⟩
  · unfold call_voprf_api
    rw [hd]
    cases hs : env.server_setup_new rng with
    | error e => simp [hs]
    | ok s =>
      cases he : env.server_evaluate s [] <;> simp [hs, he]
  · intro s hs
    unfold call_voprf_api
    rw [hd, hs]
    cases he : env.server_evaluate s [] <;> simp [he]
  · intro e hE
    unfold call_voprf_api at hE
    rw [hd] at hE
    cases hs : env.server_setup_new rng with
    | error e2 =>
      rw [hs] at hE
      simp at hE
      exact Or.inl ⟨e2, hE.symm⟩
    | ok s =>
      rw [hs] at hE
      simp only [Except.ok.injEq] at hE
      cases he : env.server_evaluate s [] with
      | error e3 =>
        simp [he] at hE
        exact Or.inr ⟨e3, hE.symm⟩
      | ok v =>
        simp [he] at hE

/-- Witness for C10 at a concrete environment whose evaluator fails, so
the error-shape disjunct is exercised with a real evaluation error. -/
theorem empty_string_reaches_evaluator_witness :
    hexDecode "" = Except.ok [] ∧
    Event.serverSetupCall ∈ (call_voprf_api envE1 0 "").2 ∧
    Event.evaluateCall ∈ (call_voprf_api envE1 0 "").2 ∧
    ((∃ d, ("Evaluation error: " ++ "boom1") = "Server setup error: " ++ d) ∨
      (∃ d, ("Evaluation error: " ++ "boom1") = "Evaluation error: " ++ d)) :=
  ⟨(empty_string_reaches_evaluator envE1 0).1,
    (empty_string_reaches_evaluator envE1 0).2.1,
    (empty_string_reaches_evaluator envE1 0).2.2.1 0 rfl,
    (empty_string_reaches_evaluator envE1 0).2.2.2 ("Evaluation error: " ++ "boom1")
      (by decide)⟩
